import Mathlib

/-!
Shallow embedding of the Scriberr web client's session-gating and
request-workflow layer: the session gate (ProtectedRoute), the password
policy evaluator and registration submission (Register), the login
response handling (Login), the LLM configuration save (LLMSettings),
and the media-URL validation and identifier extraction
(YouTubeDownloadDialog).  Strings are modelled as Lean `String`s and
character-level work happens on `String.data`.
-/

/-- The four screens the session gate can render. -/
inductive Screen
  | loading
  | registration
  | login
  | content
deriving DecidableEq, Repr

/-- Embeds `ProtectedRoute` (ProtectedRoute.tsx): priority-ordered
conditional rendering on the three session flags. -/
def ProtectedRoute (isInitialized requiresRegistration isAuthenticated : Bool) : Screen :=
  if !isInitialized then Screen.loading
  else if requiresRegistration then Screen.registration
  else if !isAuthenticated then Screen.login
  else Screen.content

/-- The five boolean facts of `checkPasswordStrength` (Register page). -/
structure PasswordStrength where
  hasMinLength : Bool
  hasUppercase : Bool
  hasLowercase : Bool
  hasNumber : Bool
  hasSpecialChar : Bool
deriving DecidableEq, Repr

/-- The character class of the regex `[!@#$%^&*(),.?":\x7b\x7d|<>]` used by
`checkPasswordStrength` for the special-character rule. -/
def specialChars : List Char :=
  ['!', '@', '#', '$', '%', '^', '&', '*', '(', ')', ',', '.', '?', '"',
   ':', '\x7b', '\x7d', '|', '<', '>']

/-- Embeds `checkPasswordStrength` (Register page): each fact computed
independently by a fixed rule. -/
def checkPasswordStrength (pwd : String) : PasswordStrength :=
  { hasMinLength := decide (8 ≤ pwd.length)
    hasUppercase := pwd.data.any fun c => decide ('A' ≤ c ∧ c ≤ 'Z')
    hasLowercase := pwd.data.any fun c => decide ('a' ≤ c ∧ c ≤ 'z')
    hasNumber := pwd.data.any fun c => decide ('0' ≤ c ∧ c ≤ '9')
    hasSpecialChar := pwd.data.any fun c => decide (c ∈ specialChars) }

/-- Embeds `isPasswordValid` (Register page): `Object.values(strength)`
all true, i.e. the conjunction of the five facts. -/
def isPasswordValid (pwd : String) : Bool :=
  let s := checkPasswordStrength pwd
  s.hasMinLength && s.hasUppercase && s.hasLowercase && s.hasNumber && s.hasSpecialChar

/-- Embeds `passwordsMatch` (Register page): equality plus a non-empty
confirmation field. -/
def passwordsMatch (password confirmPassword : String) : Bool :=
  password == confirmPassword && decide (0 < confirmPassword.length)

/-- Outcome of a form-submission handler: either a local rejection with
an error message (no network activity) or one HTTP request. -/
inductive SubmitAction
  | localReject (message : String)
  | request (path : String) (username password confirmPassword : String)
deriving DecidableEq, Repr

/-- Embeds `handleSubmit` of the Register page: local password checks
first, then a single POST to /api/v1/auth/register carrying username,
password and confirmPassword. -/
def Register.handleSubmit (username password confirmPassword : String) : SubmitAction :=
  if !isPasswordValid password then
    SubmitAction.localReject "Please ensure your password meets all requirements"
  else if !passwordsMatch password confirmPassword then
    SubmitAction.localReject "Passwords do not match"
  else
    SubmitAction.request "/api/v1/auth/register" username password confirmPassword

/-- Pattern test: the first list is a leading segment of the second. -/
def startsWithChars : List Char → List Char → Bool
  | [], _ => true
  | _ :: _, [] => false
  | p :: ps, c :: cs => p == c && startsWithChars ps cs

/-- Embeds JavaScript `String.prototype.includes`: substring containment. -/
def containsSub (sub : List Char) : List Char → Bool
  | [] => sub.isEmpty
  | s@(_ :: rest) => startsWithChars sub s || containsSub sub rest

/-- Embeds `validateYouTubeUrl` (YouTubeDownloadDialog):
`url.includes('youtube.com') || url.includes('youtu.be')`. -/
def validateYouTubeUrl (url : String) : Bool :=
  containsSub "youtube.com".data url.data || containsSub "youtu.be".data url.data

/-- The whitespace class of the regex escape \s (ASCII part). -/
def isSpaceChar (c : Char) : Bool :=
  c == ' ' || c == '\t' || c == '\n' || c == '\r' || c == '\x0b' || c == '\x0c'

/-- The character class of the capture group in `getYouTubeVideoId`:
not a quote, ampersand, question mark, slash or whitespace. -/
def isIdChar (c : Char) : Bool :=
  !(c == '"' || c == '&' || c == '?' || c == '/' || isSpaceChar c)

/-- The class of the regex metacharacter dot: any character except a
line terminator. -/
def isDotChar (c : Char) : Bool :=
  !(c == '\n' || c == '\r')

/-- Remainders after a greedy one-or-more match of the class `p`,
longest consumed first (regex backtracking order for a `+`). -/
def plusSplits (p : Char → Bool) (s : List Char) : List (List Char) :=
  let run := (s.takeWhile p).length
  (List.range run).map fun i => s.drop (run - i)

/-- Remainders after a greedy zero-or-more match of the class `p`,
longest consumed first (regex backtracking order for a `*`). -/
def starSplits (p : Char → Bool) (s : List Char) : List (List Char) :=
  let run := (s.takeWhile p).length
  (List.range (run + 1)).map fun i => s.drop (run - i)

/-- Strips a literal leading segment, or fails. -/
def stripLit (pat s : List Char) : Option (List Char) :=
  if startsWithChars pat s then some (s.drop pat.length) else none

/-- The capture group of the `getYouTubeVideoId` regex: exactly eleven
characters of the id class. -/
def captureId (s : List Char) : Option (List Char) :=
  let t := s.take 11
  if t.length == 11 && t.all isIdChar then some t else none

/-- Branch `[^\/]+\/.+\/` of the `getYouTubeVideoId` regex, followed by
the capture group, with backtracking. -/
def matchPathBranch (s : List Char) : Option (List Char) :=
  (plusSplits (fun c => !(c == '/')) s).findSome? fun s1 =>
    match s1 with
    | '/' :: s2 =>
      (plusSplits isDotChar s2).findSome? fun s3 =>
        match s3 with
        | '/' :: s4 => captureId s4
        | _ => none
    | _ => none

/-- Branch `(?:v|e(?:mbed)?)\/` of the `getYouTubeVideoId` regex,
followed by the capture group; alternatives in the engine's order. -/
def matchShortBranch (s : List Char) : Option (List Char) :=
  [stripLit "v/".data s, stripLit "embed/".data s, stripLit "e/".data s].findSome?
    fun r => r.bind captureId

/-- Branch `.*[?&]v=` of the `getYouTubeVideoId` regex, followed by the
capture group, with backtracking. -/
def matchQueryBranch (s : List Char) : Option (List Char) :=
  (starSplits isDotChar s).findSome? fun s1 =>
    match s1 with
    | c :: 'v' :: '=' :: s2 => if c == '?' || c == '&' then captureId s2 else none
    | _ => none

/-- One attempt of the full `getYouTubeVideoId` regex at a fixed start
position: the `youtube.com/` alternatives, then the `youtu.be/` one. -/
def matchAt (s : List Char) : Option (List Char) :=
  (match stripLit "youtube.com/".data s with
   | some r =>
     (matchPathBranch r).orElse fun _ =>
       (matchShortBranch r).orElse fun _ => matchQueryBranch r
   | none => none).orElse fun _ =>
    match stripLit "youtu.be/".data s with
    | some r => captureId r
    | none => none

/-- Leftmost-match scan over all start positions. -/
def scanMatch : List Char → Option (List Char)
  | [] => none
  | s@(_ :: rest) => (matchAt s).orElse fun _ => scanMatch rest

/-- Embeds `getYouTubeVideoId` (YouTubeDownloadDialog): first match of
the video-id regex, or null. -/
def getYouTubeVideoId (url : String) : Option String :=
  (scanMatch url.data).map fun cs => String.mk cs

/-- Embeds JavaScript `String.prototype.trim` (ASCII whitespace). -/
def trimChars (s : List Char) : List Char :=
  ((s.dropWhile isSpaceChar).reverse.dropWhile isSpaceChar).reverse

/-- Outcome of the media-dialog submission handler: a local validation
error (no network activity) or one import request. -/
inductive MediaAction
  | localError (message : String)
  | request (url : String) (title : Option String)
deriving DecidableEq, Repr

/-- Embeds `handleSubmit` of YouTubeDownloadDialog: empty check, local
URL validation, then one POST to /api/v1/transcription/youtube with the
trimmed URL and the optional trimmed title. -/
def YouTubeDialog.handleSubmit (url title : String) : MediaAction :=
  if (trimChars url.data).isEmpty then
    MediaAction.localError "Please enter a YouTube URL"
  else if !validateYouTubeUrl url then
    MediaAction.localError "Please enter a valid YouTube URL"
  else
    MediaAction.request (String.mk (trimChars url.data))
      (if (trimChars title.data).isEmpty then none else some (String.mk (trimChars title.data)))

/-- The client-side LLM configuration record (LLMSettings.tsx); optional
fields are `Option`, matching the `?` marks of the interface. -/
structure LLMConfig where
  id : Option Nat
  provider : String
  base_url : Option String
  has_api_key : Option Bool
  is_active : Bool
deriving DecidableEq, Repr

/-- The save-request payload built by `handleSave` (LLMSettings.tsx);
a `none` field is absent from the JSON object. -/
structure LLMPayload where
  provider : String
  is_active : Bool
  base_url : Option String
  api_key : Option String
deriving DecidableEq, Repr

/-- Embeds the payload construction of `handleSave` (LLMSettings.tsx):
`is_active` is hard-coded true, and the conditional spreads add
`base_url` exactly for provider "ollama" and `api_key` exactly for
provider "openai". -/
def handleSavePayload (config : LLMConfig) (baseUrl apiKey : String) : LLMPayload :=
  { provider := config.provider
    is_active := true
    base_url := if config.provider == "ollama" then some baseUrl else none
    api_key := if config.provider == "openai" then some apiKey else none }

/-- Embeds `isFormValid` (LLMSettings.tsx); `config.has_api_key` being
absent (`none`) is falsy in the source's boolean context. -/
def isFormValid (config : LLMConfig) (baseUrl apiKey : String) : Bool :=
  if config.provider == "ollama" then
    !(trimChars baseUrl.data).isEmpty
  else if config.provider == "openai" then
    !(trimChars apiKey.data).isEmpty || config.has_api_key.getD false
  else
    false

/-- The session state held by the authentication context and read by
the session gate. -/
structure Session where
  token : Option String
  isInitialized : Bool
  requiresRegistration : Bool
deriving DecidableEq, Repr

/-- Derived flag: a token is present and non-empty. -/
def Session.isAuthenticated (s : Session) : Bool :=
  match s.token with
  | some t => !t.isEmpty
  | none => false

/-- Result of the one-shot startup check of whether an account exists. -/
inductive InitResult
  | success (requiresRegistration : Bool)
  | networkError
deriving DecidableEq, Repr

/-- The session at application start: uninitialized, no token. -/
def initialSession : Session :=
  { token := none, isInitialized := false, requiresRegistration := false }

/-- Modelled from the spec: the authentication context's one-shot
initialization (the AuthContext module is not part of the sources here;
spec section 4.3 fixes its behaviour).  The check always marks the
session initialized; on success it records whether registration is
required, and on a network error it degrades by assuming registration
is not required. -/
def applyInit (s : Session) : InitResult → Session
  | InitResult.success r => { s with isInitialized := true, requiresRegistration := r }
  | InitResult.networkError => { s with isInitialized := true, requiresRegistration := false }

/-- The screen the session gate shows for a given session state. -/
def renderedScreen (s : Session) : Screen :=
  ProtectedRoute s.isInitialized s.requiresRegistration s.isAuthenticated

/-- Parsed outcome of the login HTTP exchange: a 2xx response carrying
a token, a non-2xx response whose JSON body optionally carries an
`error` field, or a transport-level failure. -/
inductive HttpResult
  | ok (token : String)
  | errorBody (error : Option String)
  | networkFailure
deriving DecidableEq, Repr

/-- What the login screen does with the outcome. -/
inductive LoginOutcome
  | loggedIn (token : String)
  | showError (message : String)
deriving DecidableEq, Repr

/-- Embeds the response handling of `handleSubmit` on the Login page:
`error.error || "Login failed"` for a non-2xx body (an empty-string
message is falsy and also yields the default), and the fixed network
message in the catch branch. -/
def Login.handleResponse : HttpResult → LoginOutcome
  | HttpResult.ok t => LoginOutcome.loggedIn t
  | HttpResult.errorBody e =>
    LoginOutcome.showError
      (match e with
       | some m => if m == "" then "Login failed" else m
       | none => "Login failed")
  | HttpResult.networkFailure => LoginOutcome.showError "Network error. Please try again."

/-- A config as fetched with provider ollama and nothing else set. -/
def ollamaConfig : LLMConfig :=
  { id := none, provider := "ollama", base_url := none, has_api_key := none, is_active := false }

/-- A config with provider openai and a server-confirmed stored key. -/
def openaiConfigWithKey : LLMConfig :=
  { id := some 1, provider := "openai", base_url := none, has_api_key := some true,
    is_active := false }

/-- Characterization of the leading-segment test. -/
theorem startsWithChars_iff (p : List Char) : ∀ s : List Char,
    startsWithChars p s = true ↔ ∃ t, s = p ++ t := by
  induction p with
  | nil => intro s; simp [startsWithChars]
  | cons a ps ih =>
    intro s
    cases s with
    | nil => simp [startsWithChars]
    | cons b bs =>
      simp only [startsWithChars, Bool.and_eq_true, beq_iff_eq, ih, List.cons_append,
        List.cons.injEq]
      constructor
      · rintro ⟨rfl, t, rfl⟩; exact ⟨t, rfl, rfl⟩
      · rintro ⟨t, rfl, rfl⟩; exact ⟨rfl, t, rfl⟩

/-- Characterization of the substring test: it succeeds exactly when the
pattern occurs contiguously somewhere in the scanned list. -/
theorem containsSub_iff (sub : List Char) : ∀ s : List Char,
    containsSub sub s = true ↔ ∃ pre post, s = pre ++ sub ++ post := by
  intro s
  induction s with
  | nil =>
    cases sub with
    | nil => exact ⟨fun _ => ⟨[], [], rfl⟩, fun _ => rfl⟩
    | cons a as => simp [containsSub]
  | cons c rest ih =>
    simp only [containsSub, Bool.or_eq_true, startsWithChars_iff, ih]
    constructor
    · rintro (⟨t, ht⟩ | ⟨pre, post, hr⟩)
      · exact ⟨[], t, by simpa using ht⟩
      · exact ⟨c :: pre, post, by simp [hr]⟩
    · rintro ⟨pre, post, h⟩
      cases pre with
      | nil => exact Or.inl ⟨post, by simpa using h⟩
      | cons x xs =>
        rw [List.append_assoc, List.cons_append] at h
        injection h with h1 h2
        exact Or.inr ⟨xs, post, by rw [h2, List.append_assoc]⟩

/-- C1: the session gate renders exactly one screen per flag
combination, in strict priority order: uninitialized gives loading,
then registration-required gives registration, then unauthenticated
gives login, and otherwise the protected content. -/
theorem c1_session_gate_priority : ∀ r a : Bool,
    ProtectedRoute false r a = Screen.loading ∧
    ProtectedRoute true true a = Screen.registration ∧
    ProtectedRoute true false false = Screen.login ∧
    ProtectedRoute true false true = Screen.content := by
  decide

/-- C2: a password is valid exactly when all five independent rules
hold: length at least eight, an uppercase letter, a lowercase letter, a
digit, and a character from the fixed punctuation set; the conjunction
is order-independent. -/
theorem c2_password_valid_iff_all_rules (p : String) :
    isPasswordValid p = true ↔
      (8 ≤ p.length ∧
       (∃ c ∈ p.data, 'A' ≤ c ∧ c ≤ 'Z') ∧
       (∃ c ∈ p.data, 'a' ≤ c ∧ c ≤ 'z') ∧
       (∃ c ∈ p.data, '0' ≤ c ∧ c ≤ '9') ∧
       (∃ c ∈ p.data, c ∈ specialChars)) := by
  simp only [isPasswordValid, checkPasswordStrength, Bool.and_eq_true, List.any_eq_true,
    decide_eq_true_eq]
  tauto

/-- C3: whenever the password is invalid or the confirmation does not
match, registration submission is rejected locally with a deterministic
message and never yields a network request. -/
theorem c3_registration_rejected_locally (u p c : String)
    (h : isPasswordValid p = false ∨ passwordsMatch p c = false) :
    Register.handleSubmit u p c =
      (if isPasswordValid p = false then
        SubmitAction.localReject "Please ensure your password meets all requirements"
      else SubmitAction.localReject "Passwords do not match") ∧
    ∀ path un pw cp, Register.handleSubmit u p c ≠ SubmitAction.request path un pw cp := by
  cases hv : isPasswordValid p with
  | false => simp [Register.handleSubmit, hv]
  | true =>
    rcases h with h | h
    · rw [hv] at h; cases h
    · simp [Register.handleSubmit, hv, h]

/-- Witness for C3: password "abc" fails the policy and registration
with it is rejected locally, issuing no request. -/
theorem c3_registration_rejected_locally_witness :
    Register.handleSubmit "admin" "abc" "abc" =
      SubmitAction.localReject "Please ensure your password meets all requirements" ∧
    ∀ path un pw cp,
      Register.handleSubmit "admin" "abc" "abc" ≠ SubmitAction.request path un pw cp := by
  have h := c3_registration_rejected_locally "admin" "abc" "abc" (Or.inl (by decide))
  exact ⟨h.1.trans (if_pos (by decide)), h.2⟩

/-- C4 counterexample: the submission handler performs no local
username-length check: the two-character username "ab" with a policy-
passing, matching password still yields the registration request. -/
theorem c4_counterexample_short_username :
    "ab".length < 3 ∧
    Register.handleSubmit "ab" "Password1!" "Password1!" =
      SubmitAction.request "/api/v1/auth/register" "ab" "Password1!" "Password1!" := by
  decide

/-- C4 amended: the registration submission re-validates only the
password policy and the confirmation match locally; it issues the
request for every username, of any length, once those pass (the 3-50
bounds exist only as attributes of the input element). -/
theorem c4_registration_ignores_username_length (u p c : String)
    (hv : isPasswordValid p = true) (hm : passwordsMatch p c = true) :
    Register.handleSubmit u p c = SubmitAction.request "/api/v1/auth/register" u p c := by
  simp [Register.handleSubmit, hv, hm]

/-- Witness for the amended C4, at the out-of-range username "ab". -/
theorem c4_registration_ignores_username_length_witness :
    Register.handleSubmit "ab" "Password1!" "Password1!" =
      SubmitAction.request "/api/v1/auth/register" "ab" "Password1!" "Password1!" :=
  c4_registration_ignores_username_length "ab" "Password1!" "Password1!" (by decide) (by decide)

/-- C5: the short-form video URL passes local validation, its
eleven-character identifier is extracted, and submission issues the
ingestion request; the foreign URL fails validation and every submission
with it is rejected locally with the fixed message. -/
theorem c5_media_url_examples :
    validateYouTubeUrl "https://youtu.be/dQw4w9WgXcQ" = true ∧
    getYouTubeVideoId "https://youtu.be/dQw4w9WgXcQ" = some "dQw4w9WgXcQ" ∧
    YouTubeDialog.handleSubmit "https://youtu.be/dQw4w9WgXcQ" "" =
      MediaAction.request "https://youtu.be/dQw4w9WgXcQ" none ∧
    validateYouTubeUrl "https://example.com/video" = false ∧
    ∀ title : String, YouTubeDialog.handleSubmit "https://example.com/video" title =
      MediaAction.localError "Please enter a valid YouTube URL" := by
  refine ⟨by decide, by decide, by decide, by decide, fun title => ?_⟩
  have h1 : (trimChars "https://example.com/video".data).isEmpty = false := by decide
  have h2 : validateYouTubeUrl "https://example.com/video" = false := by decide
  simp [YouTubeDialog.handleSubmit, h1, h2]

/-- C6: every saved LLM payload carries is_active true regardless of the
prior configuration, carries a base URL exactly when the ollama
(local-server) provider is selected, and carries an API key exactly when
the openai (hosted-api) provider is selected. -/
theorem c6_llm_save_payload_shape (config : LLMConfig) (baseUrl apiKey : String) :
    (handleSavePayload config baseUrl apiKey).is_active = true ∧
    ((handleSavePayload config baseUrl apiKey).base_url.isSome ↔ config.provider = "ollama") ∧
    ((handleSavePayload config baseUrl apiKey).api_key.isSome ↔ config.provider = "openai") := by
  refine ⟨rfl, ?_, ?_⟩
  · by_cases h : config.provider = "ollama" <;> simp [handleSavePayload, h]
  · by_cases h : config.provider = "openai" <;> simp [handleSavePayload, h]

/-- C7 counterexample: for the local-server provider the blank (but
non-empty) base URL " " leaves the save control invalid, so enablement
is not equivalent to the field being non-empty as stated. -/
theorem c7_counterexample_blank_base_url :
    (" " : String) ≠ "" ∧ isFormValid ollamaConfig " " "" = false := by
  decide

/-- C7 amended: the save control's validity holds, for the ollama
(local-server) provider, exactly when the base-URL field is non-empty
after trimming whitespace, and, for the openai (hosted-api) provider,
exactly when the key field is non-empty after trimming or the server
has confirmed an existing key; the two spec instances follow. -/
theorem c7_save_enablement_rule :
    (∀ (config : LLMConfig) (baseUrl apiKey : String),
      isFormValid config baseUrl apiKey = true ↔
        ((config.provider = "ollama" ∧ trimChars baseUrl.data ≠ []) ∨
         (config.provider = "openai" ∧
           (trimChars apiKey.data ≠ [] ∨ config.has_api_key = some true)))) ∧
    isFormValid ollamaConfig "" "" = false ∧
    isFormValid openaiConfigWithKey "" "" = true := by
  refine ⟨fun config baseUrl apiKey => ?_, by decide, by decide⟩
  unfold isFormValid
  by_cases h1 : config.provider = "ollama"
  · simp [h1]
  · by_cases h2 : config.provider = "openai"
    · cases hk : config.has_api_key with
      | none => simp [h1, h2, hk]
      | some b => cases b <;> simp [h1, h2, hk]
    · simp [h1, h2]

/-- C8: after a single failed initialization attempt the gate is out of
the loading state and shows the login screen. -/
theorem c8_init_failure_settles_to_login :
    renderedScreen (applyInit initialSession InitResult.networkError) = Screen.login ∧
    renderedScreen (applyInit initialSession InitResult.networkError) ≠ Screen.loading := by
  decide

/-- C9: a non-2xx body carrying a (non-empty) message is shown verbatim,
a body carrying none yields the fixed default "Login failed", and a
transport failure yields the fixed network message, which differs from
the default rejection message. -/
theorem c9_login_error_messages :
    (∀ m : String, m ≠ "" →
      Login.handleResponse (HttpResult.errorBody (some m)) = LoginOutcome.showError m) ∧
    Login.handleResponse (HttpResult.errorBody none) = LoginOutcome.showError "Login failed" ∧
    Login.handleResponse HttpResult.networkFailure =
      LoginOutcome.showError "Network error. Please try again." ∧
    ("Network error. Please try again." : String) ≠ "Login failed" := by
  refine ⟨fun m hm => ?_, rfl, rfl, by decide⟩
  simp [Login.handleResponse, hm]

/-- Witness for C9 at the concrete server message "Invalid credentials". -/
theorem c9_login_error_messages_witness :
    Login.handleResponse (HttpResult.errorBody (some "Invalid credentials")) =
      LoginOutcome.showError "Invalid credentials" :=
  c9_login_error_messages.1 "Invalid credentials" (by decide)

/-- C10: local media-URL validation accepts a string exactly when it
contains "youtube.com" or "youtu.be" as a contiguous substring anywhere;
in particular the foreign URL "https://example.com/?ref=youtu.be"
passes and its submission issues the import request. -/
theorem c10_validate_url_iff_contains :
    (∀ url : String, validateYouTubeUrl url = true ↔
      ((∃ pre post, url.data = pre ++ "youtube.com".data ++ post) ∨
       (∃ pre post, url.data = pre ++ "youtu.be".data ++ post))) ∧
    YouTubeDialog.handleSubmit "https://example.com/?ref=youtu.be" "" =
      MediaAction.request "https://example.com/?ref=youtu.be" none := by
  refine ⟨fun url => ?_, by decide⟩
  simp [validateYouTubeUrl, containsSub_iff]
